import Mathlib

/-!
Verification of batctl `sys.c`: the dual-backend settings accessor.

The file shallowly embeds the functions of `src/sys.c`:
  * `sys_simple_nlerror`   — the netlink error-acknowledgement callback;
  * `sys_simple_nlquery`   — one protocol round trip (the Query Executor);
  * `sys_read_setting` / `sys_write_setting` — backend arbitration
    (protocol first, legacy sysfs fallback on -EOPNOTSUPP);
  * `handle_sys_setting`   — the Settings Dispatcher (path resolution,
    parse hook, allow-list check, write dispatch).

External effects (stderr diagnostics, netlink sends, sysfs accesses) are
made visible as explicit trace fields so that the arbitration and
reporting claims are statable.  Results of external collaborators
(the per-setting netlink callbacks, `read_file`/`write_file`) are inputs.
-/

/-- `EOPNOTSUPP` from `<errno.h>`: operation not supported.  The code uses
`-EOPNOTSUPP` as the unsupported-by-backend sentinel. -/
def EOPNOTSUPP : Int := 95

/-- `ENOMEM` from `<errno.h>`: out of memory. -/
def ENOMEM : Int := 12

/-- `EXIT_FAILURE` from `<stdlib.h>`. -/
def EXIT_FAILURE : Int := 1

/-- `EXIT_SUCCESS` from `<stdlib.h>`. -/
def EXIT_SUCCESS : Int := 0

/-- One line written to the diagnostics sink (stderr) by `sys.c`. -/
inductive Diagnostic where
  /-- `"Error received: %s\n"` with `strerror(-code)` — from `sys_simple_nlerror`. -/
  | errReceived (code : Int)
  /-- `"Error - the supplied argument is invalid: %s\n"` -/
  | invalidArg (value : String)
  /-- `"The following values are allowed:\n"` -/
  | allowedHeader
  /-- `" * %s\n"` — one allow-list entry. -/
  | allowedValue (value : String)
  /-- usage text from `settings_usage`. -/
  | usage
  /-- `"Error - could not allocate path buffer: out of memory ?\n"` -/
  | oom
  deriving DecidableEq, Repr

/-- `sys_simple_nlerror` (src/sys.c lines 50-62): given the error code carried
by a negative acknowledgement, returns the value stored into `*result` and
the diagnostics emitted.  The C callback prints `strerror(-error)` unless the
code is `-EOPNOTSUPP`, always stores the code, and returns `NL_STOP`. -/
def sys_simple_nlerror (error : Int) : Int × List Diagnostic :=
  (error, if error ≠ -EOPNOTSUPP then [Diagnostic.errReceived error] else [])

/-- One event delivered by `nl_recvmsgs` to the callback set of the session. -/
inductive RecvEvent where
  /-- A valid data message; the registered `NL_CB_VALID` custom callback
  (a per-setting plugin) stores `v` into `*result`. -/
  | valid (v : Int)
  /-- A negative acknowledgement carrying error code `code`;
  dispatched to `sys_simple_nlerror`, which returns `NL_STOP`. -/
  | err (code : Int)
  /-- Any other message (positive ack, notification), handled by the
  default callbacks without touching `result`. -/
  | ignored
  deriving DecidableEq, Repr

/-- Environment of one `sys_simple_nlquery` call: the state of the session
and the behaviour of the external collaborators it invokes. -/
structure QueryEnv where
  /-- whether `state->sock` is non-NULL. -/
  sockPresent : Bool
  /-- whether a response callback (`callback` argument) was supplied. -/
  hasCallback : Bool
  /-- `attribute_cb` argument: `none` if NULL, `some r` if it is supplied
  and returns `r` when invoked on the message. -/
  attrCb : Option Int
  /-- whether `nlmsg_alloc` succeeds. -/
  allocOk : Bool
  /-- events delivered during the `nl_recvmsgs` receive phase. -/
  events : List RecvEvent
  deriving DecidableEq, Repr

/-- Observable outcome of one `sys_simple_nlquery` call. -/
structure QueryTrace where
  /-- the returned `result`. -/
  ret : Int
  /-- whether `nl_cb_set(state->cb, NL_CB_VALID, ...)` was executed. -/
  cbValidSet : Bool
  /-- whether `nl_cb_err(state->cb, ...)` was executed. -/
  cbErrSet : Bool
  /-- whether `nlmsg_alloc` was attempted. -/
  allocated : Bool
  /-- whether `nl_send_auto_complete` was executed. -/
  sent : Bool
  /-- diagnostics emitted during the receive phase. -/
  diags : List Diagnostic
  deriving DecidableEq, Repr

/-- The receive loop of `nl_recvmsgs` over the delivered events, threading
the `result` variable: a valid message invokes the custom valid callback
(modelled as storing its payload) when one was registered; an error
acknowledgement invokes `sys_simple_nlerror`, which stores the code and
stops the loop (`NL_STOP`); other messages leave `result` unchanged. -/
def processEvents (hasCallback : Bool) : Int → List RecvEvent → Int × List Diagnostic
  | result, [] => (result, [])
  | result, RecvEvent.valid v :: rest =>
      processEvents hasCallback (if hasCallback then v else result) rest
  | _, RecvEvent.err code :: _ => sys_simple_nlerror code
  | result, RecvEvent.ignored :: rest => processEvents hasCallback result rest

/-- `sys_simple_nlquery` (src/sys.c lines 64-107).  Returns `-EOPNOTSUPP`
at once when no socket is present; pre-initialises `result` to
`-EOPNOTSUPP` when a response callback is supplied (else `0`); registers
the callbacks; allocates and populates the message (`-ENOMEM` on
allocation failure, and `-ENOMEM` without sending when the attribute
callback fails); sends it; then runs the receive phase and returns
whatever ended up in `result`. -/
def sys_simple_nlquery (env : QueryEnv) : QueryTrace :=
  if env.sockPresent = false then
    ⟨-EOPNOTSUPP, false, false, false, false, []⟩
  else
    let result := if env.hasCallback then -EOPNOTSUPP else 0
    if env.allocOk = false then
      ⟨-ENOMEM, env.hasCallback, true, true, false, []⟩
    else
      match env.attrCb with
      | some r =>
          if r < 0 then
            ⟨-ENOMEM, env.hasCallback, true, true, false, []⟩
          else
            let out := processEvents env.hasCallback result env.events
            ⟨out.1, env.hasCallback, true, true, true, out.2⟩
      | none =>
          let out := processEvents env.hasCallback result env.events
          ⟨out.1, env.hasCallback, true, true, true, out.2⟩

/-- Little-endian decimal digit list used by `decChars`. -/
def decDigits (n : Nat) : List Nat := Nat.digits 10 n

/-- The character sequence `snprintf`'s `%d` prints for a non-negative
value: most-significant-first decimal digits, `"0"` for zero. -/
def decChars (n : Nat) : List Char :=
  if n = 0 then ['0'] else ((decDigits n).map Nat.digitChar).reverse

/-- Decimal rendering of a non-negative integer as a `String`. -/
def decString (n : Nat) : String := ⟨decChars n⟩

/-- Modelled from the spec: the physical-interface addressing path template
(`SYS_BATIF_PATH_FMT`, declared in `sys.h`, which is not among the provided
sources) — a fixed naming template keyed only by the interface name. -/
def SYS_BATIF_PATH (mesh_iface : String) : String :=
  "/sys/class/net/" ++ mesh_iface ++ "/mesh/"

/-- Modelled from the spec: the VLAN addressing path template
(`SYS_VLAN_PATH`, declared in `sys.h`, which is not among the provided
sources) — the physical-interface template with a `vlan%{vid}` sub-folder
nested one level under it, keyed by the interface name and the literal
VLAN identifier. -/
def SYS_VLAN_PATH (mesh_iface : String) (vid : Nat) : String :=
  SYS_BATIF_PATH mesh_iface ++ "vlan" ++ decString vid ++ "/"

/-- The path computation of `handle_sys_setting` (src/sys.c lines 184-192):
a non-negative `state->vid` selects the VLAN sub-folder template, a
negative one the plain mesh-interface template. -/
def resolve_path (mesh_iface : String) (vid : Int) : String :=
  if 0 ≤ vid then SYS_VLAN_PATH mesh_iface vid.toNat
  else SYS_BATIF_PATH mesh_iface

/-- The Path Resolver viewed over target descriptors (spec §3: interface
name plus an *optional* non-negative VLAN identifier). -/
def resolve_target (mesh_iface : String) : Option Nat → String
  | some vid => SYS_VLAN_PATH mesh_iface vid
  | none => SYS_BATIF_PATH mesh_iface

/-- `struct settings_data` (declared in `sys.h`): the per-setting
descriptor.  The netlink operations and the parse hook are external
plugins; the model records whether each is declared and, if so, the value
it returns when invoked. -/
structure SettingsData where
  /-- legacy sysfs entry name; `none` models a NULL `sysfs_name`. -/
  sysfs_name : Option String
  /-- allow-list; `none` models a NULL `params` pointer, `some l` a
  NULL-terminated array holding `l` in order. -/
  params : Option (List String)
  /-- parse hook; `none` models a NULL `parse`, `some r` a hook
  returning `r`. -/
  parse : Option Int
  /-- protocol read operation; `none` models a NULL `netlink_get`,
  `some r` an operation returning `r`. -/
  netlink_get : Option Int
  /-- protocol write operation; `none` models a NULL `netlink_set`,
  `some r` an operation returning `r`. -/
  netlink_set : Option Int
  deriving DecidableEq, Repr

/-- Observable outcome of `sys_read_setting` / `sys_write_setting`:
the returned value plus which backends were invoked, with the
arguments handed to the legacy backend. -/
structure BackendTrace where
  /-- the returned `res`. -/
  ret : Int
  /-- number of invocations of the declared netlink operation. -/
  netlinkCalls : Nat
  /-- `read_file` invocations: `(path_buff, sysfs_name)` pairs. -/
  legacyReads : List (String × String)
  /-- `write_file` invocations: `(path_buff, sysfs_name, value, secondary)`. -/
  legacyWrites : List (String × String × String × Option String)
  deriving DecidableEq, Repr

/-- `sys_read_setting` (src/sys.c lines 118-136).  `read_file_res` is the
value the external `read_file` returns if invoked. -/
def sys_read_setting (settings : SettingsData) (path_buff : String)
    (read_file_res : Int) : BackendTrace :=
  match settings.netlink_get with
  | some r =>
      if r < 0 ∧ r ≠ -EOPNOTSUPP then
        ⟨EXIT_FAILURE, 1, [], []⟩
      else if 0 ≤ r then
        ⟨EXIT_SUCCESS, 1, [], []⟩
      else
        match settings.sysfs_name with
        | some name => ⟨read_file_res, 1, [(path_buff, name)], []⟩
        | none => ⟨r, 1, [], []⟩
  | none =>
      match settings.sysfs_name with
      | some name => ⟨read_file_res, 0, [(path_buff, name)], []⟩
      | none => ⟨EXIT_FAILURE, 0, [], []⟩

/-- `sys_write_setting` (src/sys.c lines 138-157).  `write_file_res` is the
value the external `write_file` returns if invoked; `argv` is the argument
vector (`argv 1` the value, `argv 2` the optional secondary value when
`argc > 2`). -/
def sys_write_setting (settings : SettingsData) (path_buff : String)
    (write_file_res : Int) (argv : List String) : BackendTrace :=
  match settings.netlink_set with
  | some r =>
      if r < 0 ∧ r ≠ -EOPNOTSUPP then
        ⟨EXIT_FAILURE, 1, [], []⟩
      else if 0 ≤ r then
        ⟨EXIT_SUCCESS, 1, [], []⟩
      else
        match settings.sysfs_name with
        | some name =>
            ⟨write_file_res, 1, [],
             [(path_buff, name, argv.getD 1 "",
               if 2 < argv.length then some (argv.getD 2 "") else none)]⟩
        | none => ⟨r, 1, [], []⟩
  | none =>
      match settings.sysfs_name with
      | some name =>
          ⟨write_file_res, 0, [],
           [(path_buff, name, argv.getD 1 "",
             if 2 < argv.length then some (argv.getD 2 "") else none)]⟩
      | none => ⟨EXIT_FAILURE, 0, [], []⟩

/-- Result of the `getopt` loop of `handle_sys_setting` (src/sys.c lines
166-175); option parsing itself is an external collaborator (spec §1). -/
inductive OptOutcome where
  /-- a `-h` flag was found. -/
  | help
  /-- an unrecognized flag was found. -/
  | badopt
  /-- no option flags: fall through to the dispatcher proper. -/
  | noopts
  deriving DecidableEq, Repr

/-- Termination of one `handle_sys_setting` invocation. -/
inductive HandleOutcome where
  /-- a normal return with the given value. -/
  | ret (code : Int)
  /-- the process was terminated by `check_root_or_die`. -/
  | died
  deriving DecidableEq, Repr

/-- Environment of one `handle_sys_setting` invocation: results of the
external collaborators it may consult. -/
structure SysEnv where
  /-- outcome of the `getopt` scan. -/
  optOutcome : OptOutcome
  /-- whether `malloc(PATH_BUFF_LEN)` succeeds. -/
  mallocOk : Bool
  /-- whether `check_root_or_die` lets the process continue. -/
  isRoot : Bool
  /-- value the external `read_file` returns if invoked. -/
  read_file_res : Int
  /-- value the external `write_file` returns if invoked. -/
  write_file_res : Int
  deriving DecidableEq, Repr

/-- Observable outcome of one `handle_sys_setting` invocation. -/
structure HandleResult where
  /-- how the invocation terminated. -/
  outcome : HandleOutcome
  /-- diagnostics emitted by `handle_sys_setting` itself. -/
  diags : List Diagnostic
  /-- number of invocations of the parse hook. -/
  parseCalls : Nat
  /-- number of invocations of the declared netlink operation. -/
  netlinkCalls : Nat
  /-- `read_file` invocations: `(path_buff, sysfs_name)`. -/
  legacyReads : List (String × String)
  /-- `write_file` invocations: `(path_buff, sysfs_name, value, secondary)`. -/
  legacyWrites : List (String × String × String × Option String)
  deriving DecidableEq, Repr

/-- Packaging of a backend trace as the tail of a `handle_sys_setting`
invocation that dispatched to a backend pair after `parseCalls` parse-hook
invocations (the `write_file:`/`out:` tail of the function). -/
def HandleResult.ofBackend (pc : Nat) (t : BackendTrace) : HandleResult :=
  ⟨HandleOutcome.ret t.ret, [], pc, t.netlinkCalls, t.legacyReads, t.legacyWrites⟩

/-- The allow-list check and write dispatch of `handle_sys_setting`
(src/sys.c lines 209-233): a NULL `params` goes straight to
`sys_write_setting`; otherwise `argv[1]` is compared by `strcmp` against
the entries in order, a match dispatching the write and a miss printing
the offending value and every allowed entry in declared order, then
jumping to `out:` — which returns the *current* value of `res`: still
`EXIT_FAILURE` from its initialisation when no parse hook was declared,
but the parse hook's non-negative return value when one ran.  `res` is
that current value. -/
def handle_allow_list (settings : SettingsData) (env : SysEnv)
    (path_buff : String) (argv : List String) (pc : Nat) (res : Int) :
    HandleResult :=
  match settings.params with
  | none =>
      HandleResult.ofBackend pc
        (sys_write_setting settings path_buff env.write_file_res argv)
  | some l =>
      if l.contains (argv.getD 1 "") then
        HandleResult.ofBackend pc
          (sys_write_setting settings path_buff env.write_file_res argv)
      else
        ⟨HandleOutcome.ret res,
         Diagnostic.invalidArg (argv.getD 1 "") :: Diagnostic.allowedHeader ::
           l.map Diagnostic.allowedValue,
         pc, 0, [], []⟩

/-- `handle_sys_setting` (src/sys.c lines 159-238): option scan, path
buffer allocation, path resolution, read/write arity branch, root check,
parse hook, allow-list check, then dispatch through
`sys_read_setting` / `sys_write_setting`. -/
def handle_sys_setting (settings : SettingsData) (env : SysEnv)
    (mesh_iface : String) (vid : Int) (argv : List String) : HandleResult :=
  match env.optOutcome with
  | OptOutcome.help =>
      ⟨HandleOutcome.ret EXIT_SUCCESS, [Diagnostic.usage], 0, 0, [], []⟩
  | OptOutcome.badopt =>
      ⟨HandleOutcome.ret EXIT_FAILURE, [Diagnostic.usage], 0, 0, [], []⟩
  | OptOutcome.noopts =>
      if env.mallocOk = false then
        ⟨HandleOutcome.ret EXIT_FAILURE, [Diagnostic.oom], 0, 0, [], []⟩
      else
        let path_buff := resolve_path mesh_iface vid
        if argv.length = 1 then
          HandleResult.ofBackend 0
            (sys_read_setting settings path_buff env.read_file_res)
        else if env.isRoot = false then
          ⟨HandleOutcome.died, [], 0, 0, [], []⟩
        else
          match settings.parse with
          | some p =>
              if p < 0 then
                ⟨HandleOutcome.ret EXIT_FAILURE, [], 1, 0, [], []⟩
              else
                handle_allow_list settings env path_buff argv 1 p
          | none => handle_allow_list settings env path_buff argv 0 EXIT_FAILURE

/-- A read invocation with the protocol operation instantiated by
`sys_simple_nlquery` itself: the declared `netlink_get` plugin (if any)
runs one query in environment `qenv`, whose return value feeds
`sys_read_setting` and whose diagnostics join the invocation's report. -/
def sys_read_invocation (qenv : Option QueryEnv) (sysfs_name : Option String)
    (path_buff : String) (read_file_res : Int) :
    BackendTrace × List Diagnostic :=
  (sys_read_setting
     ⟨sysfs_name, none, none,
      qenv.map (fun e => (sys_simple_nlquery e).ret), none⟩
     path_buff read_file_res,
   match qenv with
   | none => []
   | some e => (sys_simple_nlquery e).diags)

/-! ### Helper lemmas about decimal renderings and list splitting -/

theorem digitChar_isDigit : ∀ d, d < 10 → (Nat.digitChar d).isDigit = true := by decide

theorem digitChar_inj_lt :
    ∀ a, a < 10 → ∀ b, b < 10 → Nat.digitChar a = Nat.digitChar b → a = b := by decide

theorem decChars_ne_nil (n : Nat) : decChars n ≠ [] := by
  unfold decChars
  by_cases h : n = 0
  · simp [h]
  · simp [h, decDigits, Nat.digits_ne_nil_iff_ne_zero.mpr h]

theorem mem_decChars_isDigit (n : Nat) : ∀ c ∈ decChars n, c.isDigit = true := by
  intro c hc
  unfold decChars at hc
  by_cases h : n = 0
  · simp [h] at hc
    simp [hc]
  · simp [h, decDigits, List.mem_reverse, List.mem_map] at hc
    obtain ⟨d, hd, rfl⟩ := hc
    exact digitChar_isDigit d (Nat.digits_lt_base (by norm_num) hd)

theorem map_digitChar_inj :
    ∀ (l₁ l₂ : List Nat), (∀ d ∈ l₁, d < 10) → (∀ d ∈ l₂, d < 10) →
      l₁.map Nat.digitChar = l₂.map Nat.digitChar → l₁ = l₂ := by
  intro l₁
  induction l₁ with
  | nil =>
      intro l₂ _ _ h
      cases l₂ with
      | nil => rfl
      | cons d t => simp at h
  | cons d t ih =>
      intro l₂ h₁ h₂ h
      cases l₂ with
      | nil => simp at h
      | cons d' t' =>
          simp only [List.map_cons, List.cons.injEq] at h
          have hd : d = d' :=
            digitChar_inj_lt d (h₁ d (by simp)) d' (h₂ d' (by simp)) h.1
          have ht : t = t' :=
            ih t' (fun x hx => h₁ x (by simp [hx])) (fun x hx => h₂ x (by simp [hx])) h.2
          rw [hd, ht]

theorem decChars_inj : ∀ m n : Nat, decChars m = decChars n → m = n := by
  have key : ∀ n : Nat, n ≠ 0 → decChars n ≠ decChars 0 := by
    intro n hn hEq
    have h0 : decChars 0 = ['0'] := by simp [decChars]
    have h1 : ((decDigits n).map Nat.digitChar).reverse = ['0'] := by
      rw [← h0, ← hEq]; simp [decChars, hn]
    have h2 : (decDigits n).map Nat.digitChar = ['0'] := by
      have := congrArg List.reverse h1
      simpa using this
    rcases hl : decDigits n with _ | ⟨d, t⟩
    · rw [hl] at h2; simp at h2
    · rw [hl] at h2
      rcases t with _ | ⟨d', t'⟩
      · simp only [List.map_cons, List.map_nil, List.cons.injEq, and_true] at h2
        have hd10 : d < 10 :=
          Nat.digits_lt_base (by norm_num) (by rw [show Nat.digits 10 n = [d] from hl]; simp)
        have hd0 : d = 0 := by
          have : Nat.digitChar d = Nat.digitChar 0 := by simpa using h2
          exact digitChar_inj_lt d hd10 0 (by norm_num) this
        have hl' : Nat.digits 10 n = [0] := by simpa [decDigits, hd0] using hl
        have hofd := Nat.ofDigits_digits 10 n
        rw [hl'] at hofd
        simp [Nat.ofDigits] at hofd
        exact hn hofd.symm
      · simp at h2
  intro m n h
  by_cases hm : m = 0
  · by_cases hn : n = 0
    · rw [hm, hn]
    · exact absurd (h.symm.trans (by rw [hm])) (key n hn)
  · by_cases hn : n = 0
    · exact absurd (h.trans (by rw [hn])) (key m hm)
    · have h1 : ((decDigits m).map Nat.digitChar).reverse
          = ((decDigits n).map Nat.digitChar).reverse := by
        have hm' := hm; have hn' := hn
        simpa [decChars, hm', hn'] using h
      have h2 : (decDigits m).map Nat.digitChar = (decDigits n).map Nat.digitChar := by
        have := congrArg List.reverse h1
        simpa using this
      have h3 : decDigits m = decDigits n :=
        map_digitChar_inj _ _
          (fun d hd => Nat.digits_lt_base (by norm_num) hd)
          (fun d hd => Nat.digits_lt_base (by norm_num) hd) h2
      simpa [decDigits] using h3

theorem append_split_on_pred (p : Char → Bool) :
    ∀ (a₁ b₁ a₂ b₂ : List Char),
      (∀ c ∈ a₁, p c = true) → (∀ c ∈ a₂, p c = true) →
      (∀ c, b₁.head? = some c → p c = false) →
      (∀ c, b₂.head? = some c → p c = false) →
      a₁ ++ b₁ = a₂ ++ b₂ → a₁ = a₂ ∧ b₁ = b₂ := by
  intro a₁
  induction a₁ with
  | nil =>
      intro b₁ a₂ b₂ _ ha₂ hb₁ _ h
      cases a₂ with
      | nil => exact ⟨rfl, by simpa using h⟩
      | cons c t =>
          exfalso
          have hc : b₁.head? = some c := by
            rw [show b₁ = c :: (t ++ b₂) by simpa using h]
            rfl
          have := hb₁ c hc
          have := ha₂ c (by simp)
          simp_all
  | cons c t ih =>
      intro b₁ a₂ b₂ ha₁ ha₂ hb₁ hb₂ h
      cases a₂ with
      | nil =>
          exfalso
          have hc : b₂.head? = some c := by
            rw [show b₂ = c :: (t ++ b₁) by simpa using h.symm]
            rfl
          have := hb₂ c hc
          have := ha₁ c (by simp)
          simp_all
      | cons c' t' =>
          simp only [List.cons_append, List.cons.injEq] at h
          obtain ⟨rfl, h'⟩ := h
          obtain ⟨h₁, h₂⟩ := ih b₁ t' b₂
            (fun x hx => ha₁ x (by simp [hx]))
            (fun x hx => ha₂ x (by simp [hx])) hb₁ hb₂ h'
          exact ⟨by rw [h₁], h₂⟩

theorem decString_data (n : Nat) : (decString n).data = decChars n := rfl

theorem SYS_BATIF_PATH_inj (i₁ i₂ : String)
    (h : SYS_BATIF_PATH i₁ = SYS_BATIF_PATH i₂) : i₁ = i₂ := by
  have hd := congrArg String.data h
  simp only [SYS_BATIF_PATH, String.data_append, List.append_assoc] at hd
  have h1 := List.append_cancel_left hd
  have h2 := List.append_cancel_right h1
  exact String.ext h2

theorem SYS_VLAN_PATH_inj (i₁ i₂ : String) (v₁ v₂ : Nat)
    (h : SYS_VLAN_PATH i₁ v₁ = SYS_VLAN_PATH i₂ v₂) : i₁ = i₂ ∧ v₁ = v₂ := by
  have hd := congrArg String.data h
  simp only [SYS_VLAN_PATH, SYS_BATIF_PATH, decString_data, String.data_append,
    List.append_assoc] at hd
  have h1 := List.append_cancel_left hd
  have h2 := congrArg List.reverse h1
  simp only [List.reverse_append, List.append_assoc] at h2
  have hslash : (("/" : String).data).reverse = ['/'] := rfl
  have hvlan : (("vlan" : String).data).reverse = ['n', 'a', 'l', 'v'] := rfl
  rw [hslash, hvlan] at h2
  simp only [List.singleton_append, List.cons.injEq, true_and] at h2
  have hsplit := append_split_on_pred Char.isDigit
    (decChars v₁).reverse _ (decChars v₂).reverse _
    (fun c hc => mem_decChars_isDigit v₁ c (List.mem_reverse.mp hc))
    (fun c hc => mem_decChars_isDigit v₂ c (List.mem_reverse.mp hc))
    (fun c hc => by
      simp only [List.cons_append, List.head?_cons, Option.some.injEq] at hc
      rw [← hc]; rfl)
    (fun c hc => by
      simp only [List.cons_append, List.head?_cons, Option.some.injEq] at hc
      rw [← hc]; rfl)
    h2
  obtain ⟨hdig, hrest⟩ := hsplit
  have hv : v₁ = v₂ := by
    have := congrArg List.reverse hdig
    simp only [List.reverse_reverse] at this
    exact decChars_inj _ _ this
  have hi : i₁ = i₂ := by
    have h3 := List.append_cancel_left hrest
    have h4 := List.append_cancel_left h3
    have := congrArg List.reverse h4
    simp only [List.reverse_reverse] at this
    exact String.ext this
  exact ⟨hi, hv⟩

theorem SYS_BATIF_PATH_ne_VLAN (i₁ i₂ : String) (v : Nat) :
    SYS_BATIF_PATH i₁ ≠ SYS_VLAN_PATH i₂ v := by
  intro h
  have hd := congrArg String.data h
  simp only [SYS_VLAN_PATH, SYS_BATIF_PATH, decString_data, String.data_append,
    List.append_assoc] at hd
  have h1 := List.append_cancel_left hd
  have h2 := congrArg List.reverse h1
  simp only [List.reverse_append, List.append_assoc] at h2
  have hmesh : (("/mesh/" : String).data).reverse = ['/', 'h', 's', 'e', 'm', '/'] := rfl
  have hslash : (("/" : String).data).reverse = ['/'] := rfl
  have hvlan : (("vlan" : String).data).reverse = ['n', 'a', 'l', 'v'] := rfl
  rw [hmesh, hslash, hvlan] at h2
  simp only [List.cons_append, List.singleton_append, List.cons.injEq, true_and] at h2
  have hsplit := append_split_on_pred Char.isDigit
    [] (['h', 's', 'e', 'm', '/'] ++ i₁.data.reverse)
    (decChars v).reverse
    (['n', 'a', 'l', 'v'] ++ ((("/mesh/" : String).data).reverse ++ i₂.data.reverse))
    (by simp)
    (fun c hc => mem_decChars_isDigit v c (List.mem_reverse.mp hc))
    (fun c hc => by
      simp only [List.cons_append, List.head?_cons, Option.some.injEq] at hc
      rw [← hc]; rfl)
    (fun c hc => by
      simp only [List.cons_append, List.head?_cons, Option.some.injEq] at hc
      rw [← hc]; rfl)
    (by simpa [hmesh] using h2)
  have := hsplit.1
  exact decChars_ne_nil v (by
    have h5 := congrArg List.reverse this
    simpa using h5.symm)

theorem resolve_target_injective (i₁ i₂ : String) (o₁ o₂ : Option Nat)
    (h : resolve_target i₁ o₁ = resolve_target i₂ o₂) : i₁ = i₂ ∧ o₁ = o₂ := by
  cases o₁ with
  | none =>
      cases o₂ with
      | none => exact ⟨SYS_BATIF_PATH_inj i₁ i₂ h, rfl⟩
      | some v => exact absurd h (SYS_BATIF_PATH_ne_VLAN i₁ i₂ v)
  | some v₁ =>
      cases o₂ with
      | none => exact absurd h.symm (SYS_BATIF_PATH_ne_VLAN i₂ i₁ v₁)
      | some v₂ =>
          obtain ⟨hi, hv⟩ := SYS_VLAN_PATH_inj i₁ i₂ v₁ v₂ h
          exact ⟨hi, by rw [hv]⟩

theorem processEvents_all_ignored (hasCallback : Bool) (init : Int) :
    ∀ events : List RecvEvent, (∀ e ∈ events, e = RecvEvent.ignored) →
      processEvents hasCallback init events = (init, []) := by
  intro events
  induction events with
  | nil => intro _; rfl
  | cons e rest ih =>
      intro h
      have he := h e (by simp)
      subst he
      simp only [processEvents]
      exact ih (fun x hx => h x (by simp [hx]))

theorem neg_EOPNOTSUPP_neg : (-EOPNOTSUPP : Int) < 0 := by norm_num [EOPNOTSUPP]

/-! ### Claim theorems -/

/-- C5: whenever the session's transport socket is absent,
`sys_simple_nlquery` returns `-EOPNOTSUPP` immediately: nothing is
allocated, nothing is sent, and neither callback slot of the registry is
touched. -/
theorem C5_no_socket_returns_unsupported (env : QueryEnv)
    (h : env.sockPresent = false) :
    sys_simple_nlquery env =
      ⟨-EOPNOTSUPP, false, false, false, false, []⟩ := by
  simp [sys_simple_nlquery, h]

theorem C5_witness :
    (QueryEnv.mk false true none true []).sockPresent = false ∧
    sys_simple_nlquery (QueryEnv.mk false true none true []) =
      ⟨-EOPNOTSUPP, false, false, false, false, []⟩ :=
  ⟨rfl, C5_no_socket_returns_unsupported _ rfl⟩

/-- C10: when the attribute callback fails (returns a negative value),
`sys_simple_nlquery` returns `-ENOMEM` — whatever the callback's actual
error code was — and the message is never transmitted. -/
theorem C10_attribute_cb_failure (env : QueryEnv) (r : Int)
    (hs : env.sockPresent = true) (ha : env.allocOk = true)
    (hcb : env.attrCb = some r) (hr : r < 0) :
    (sys_simple_nlquery env).ret = -ENOMEM ∧
    (sys_simple_nlquery env).sent = false := by
  simp [sys_simple_nlquery, hs, ha, hcb, hr]

theorem C10_witness :
    (QueryEnv.mk true false (some (-7)) true []).attrCb = some (-7) ∧
    ((-7 : Int) < 0) ∧
    (sys_simple_nlquery (QueryEnv.mk true false (some (-7)) true [])).ret
      = -ENOMEM ∧
    (sys_simple_nlquery (QueryEnv.mk true false (some (-7)) true [])).sent
      = false :=
  ⟨rfl, by norm_num,
   C10_attribute_cb_failure _ (-7) rfl rfl rfl (by norm_num)⟩

/-- C9: a receive phase that delivers neither a valid data message nor an
error acknowledgement leaves `result` at its pre-initialised value, so a
query with a response callback (a read) returns `-EOPNOTSUPP` — the same
code as a backend that declined — while a query without one (a write)
returns `0`. -/
theorem C9_silent_receive_returns_init (env : QueryEnv)
    (hs : env.sockPresent = true) (ha : env.allocOk = true)
    (hcb : env.attrCb = none ∨ ∃ r, env.attrCb = some r ∧ 0 ≤ r)
    (hev : ∀ e ∈ env.events, e = RecvEvent.ignored) :
    (env.hasCallback = true → (sys_simple_nlquery env).ret = -EOPNOTSUPP) ∧
    (env.hasCallback = false → (sys_simple_nlquery env).ret = 0) := by
  constructor <;> intro hc
  · rcases hcb with h | ⟨r, hr, hr0⟩
    · simp [sys_simple_nlquery, hs, ha, h, hc,
        processEvents_all_ignored true (-EOPNOTSUPP) env.events hev]
    · simp [sys_simple_nlquery, hs, ha, hr, not_lt.mpr hr0, hc,
        processEvents_all_ignored true (-EOPNOTSUPP) env.events hev]
  · rcases hcb with h | ⟨r, hr, hr0⟩
    · simp [sys_simple_nlquery, hs, ha, h, hc,
        processEvents_all_ignored false 0 env.events hev]
    · simp [sys_simple_nlquery, hs, ha, hr, not_lt.mpr hr0, hc,
        processEvents_all_ignored false 0 env.events hev]

theorem C9_witness :
    ((QueryEnv.mk true true none true [RecvEvent.ignored]).sockPresent = true) ∧
    ((QueryEnv.mk true true none true [RecvEvent.ignored]).attrCb = none) ∧
    (∀ e ∈ (QueryEnv.mk true true none true [RecvEvent.ignored]).events,
       e = RecvEvent.ignored) ∧
    (sys_simple_nlquery (QueryEnv.mk true true none true [RecvEvent.ignored])).ret
      = -EOPNOTSUPP ∧
    (sys_simple_nlquery (QueryEnv.mk true false none true [RecvEvent.ignored])).ret
      = 0 :=
  ⟨rfl, rfl, by decide,
   (C9_silent_receive_returns_init _ rfl rfl (Or.inl rfl) (by decide)).1 rfl,
   (C9_silent_receive_returns_init _ rfl rfl (Or.inl rfl) (by decide)).2 rfl⟩

/-- C4: an error acknowledgement carrying `-EOPNOTSUPP` makes
`sys_simple_nlquery` return that code silently; any other carried code is
returned together with a diagnostic naming the failure reason (the
`strerror` of the code), and the read dispatcher treats such a code as a
terminal failure with no legacy fallback. -/
theorem C4_error_ack_handling (env : QueryEnv) (c : Int)
    (hs : env.sockPresent = true) (ha : env.allocOk = true)
    (hat : env.attrCb = none)
    (hev : env.events = [RecvEvent.err c]) (hneg : c < 0) :
    (sys_simple_nlerror c).1 = c ∧
    (c = -EOPNOTSUPP →
       (sys_simple_nlquery env).ret = c ∧
       (sys_simple_nlquery env).diags = []) ∧
    (c ≠ -EOPNOTSUPP →
       (sys_simple_nlquery env).ret = c ∧
       (sys_simple_nlquery env).diags = [Diagnostic.errReceived c] ∧
       ∀ (s : SettingsData) (path : String) (rf : Int),
         s.netlink_get = some c →
           (sys_read_setting s path rf).ret = EXIT_FAILURE ∧
           (sys_read_setting s path rf).legacyReads = [] ∧
           (sys_read_setting s path rf).legacyWrites = []) := by
  refine ⟨rfl, ?_, ?_⟩
  · intro hc
    simp [sys_simple_nlquery, hs, ha, hat, hev, processEvents,
      sys_simple_nlerror, hc]
  · intro hc
    refine ⟨?_, ?_, ?_⟩
    · simp [sys_simple_nlquery, hs, ha, hat, hev, processEvents,
        sys_simple_nlerror]
    · simp [sys_simple_nlquery, hs, ha, hat, hev, processEvents,
        sys_simple_nlerror, hc]
    · intro s path rf hng
      simp [sys_read_setting, hng, hneg, hc]

theorem C4_witness :
    ((QueryEnv.mk true true none true [RecvEvent.err (-1)]).events
       = [RecvEvent.err (-1)]) ∧
    ((-1 : Int) < 0) ∧ ((-1 : Int) ≠ -EOPNOTSUPP) ∧
    (sys_simple_nlquery (QueryEnv.mk true true none true [RecvEvent.err (-1)])).ret
      = -1 ∧
    (sys_simple_nlquery (QueryEnv.mk true true none true [RecvEvent.err (-1)])).diags
      = [Diagnostic.errReceived (-1)] ∧
    (sys_read_setting (SettingsData.mk (some "aggregation") none none (some (-1)) none)
       "p" 0).ret = EXIT_FAILURE ∧
    (sys_read_setting (SettingsData.mk (some "aggregation") none none (some (-1)) none)
       "p" 0).legacyReads = [] := by
  have h := C4_error_ack_handling (QueryEnv.mk true true none true [RecvEvent.err (-1)])
    (-1) rfl rfl rfl rfl (by norm_num)
  have h2 := h.2.2 (by norm_num [EOPNOTSUPP])
  have h3 := h2.2.2 (SettingsData.mk (some "aggregation") none none (some (-1)) none)
    "p" 0 rfl
  exact ⟨rfl, by norm_num, by norm_num [EOPNOTSUPP], h2.1, h2.2.1, h3.1, h3.2.1⟩

/-- C1: in every read or write invocation the legacy backend is consulted
only when the protocol operation is undeclared or returned `-EOPNOTSUPP`;
with `-EOPNOTSUPP` and a declared legacy entry it is consulted exactly
once; and a protocol success or any other negative code leaves the legacy
backend untouched. -/
theorem C1_legacy_only_on_unsupported (s : SettingsData) (path : String)
    (rf wf : Int) (argv : List String) :
    ((sys_read_setting s path rf).legacyReads ≠ [] →
       s.netlink_get = none ∨ s.netlink_get = some (-EOPNOTSUPP)) ∧
    (s.netlink_get = some (-EOPNOTSUPP) → s.sysfs_name ≠ none →
       (sys_read_setting s path rf).legacyReads.length = 1) ∧
    (∀ r, s.netlink_get = some r → (0 ≤ r ∨ (r < 0 ∧ r ≠ -EOPNOTSUPP)) →
       (sys_read_setting s path rf).legacyReads = []) ∧
    ((sys_write_setting s path wf argv).legacyWrites ≠ [] →
       s.netlink_set = none ∨ s.netlink_set = some (-EOPNOTSUPP)) ∧
    (s.netlink_set = some (-EOPNOTSUPP) → s.sysfs_name ≠ none →
       (sys_write_setting s path wf argv).legacyWrites.length = 1) ∧
    (∀ r, s.netlink_set = some r → (0 ≤ r ∨ (r < 0 ∧ r ≠ -EOPNOTSUPP)) →
       (sys_write_setting s path wf argv).legacyWrites = []) := by
  refine ⟨?_, ?_, ?_, ?_, ?_, ?_⟩
  · rcases hng : s.netlink_get with _ | r
    · intro _; exact Or.inl rfl
    · intro h
      by_cases h1 : r < 0 ∧ r ≠ -EOPNOTSUPP
      · simp [sys_read_setting, hng, h1] at h
      · by_cases h2 : 0 ≤ r
        · simp [sys_read_setting, hng, h1, h2] at h
        · right
          have : r = -EOPNOTSUPP := by
            by_contra hne
            exact h1 ⟨by omega, hne⟩
          rw [this]
  · intro hng hns
    rcases hns' : s.sysfs_name with _ | name
    · exact absurd hns' hns
    · have h1 : ¬((-EOPNOTSUPP : Int) < 0 ∧ (-EOPNOTSUPP : Int) ≠ -EOPNOTSUPP) := by
        simp
      have h2 : ¬(0 ≤ (-EOPNOTSUPP : Int)) := by norm_num [EOPNOTSUPP]
      simp [sys_read_setting, hng, hns', h1, h2]
  · intro r hng hr
    rcases hr with hr | hr
    · simp [sys_read_setting, hng, not_lt.mpr hr, hr]
    · rcases hns' : s.sysfs_name with _ | name <;>
        simp [sys_read_setting, hng, hns', hr.1, hr.2]
  · rcases hng : s.netlink_set with _ | r
    · intro _; exact Or.inl rfl
    · intro h
      by_cases h1 : r < 0 ∧ r ≠ -EOPNOTSUPP
      · simp [sys_write_setting, hng, h1] at h
      · by_cases h2 : 0 ≤ r
        · simp [sys_write_setting, hng, h1, h2] at h
        · right
          have : r = -EOPNOTSUPP := by
            by_contra hne
            exact h1 ⟨by omega, hne⟩
          rw [this]
  · intro hng hns
    rcases hns' : s.sysfs_name with _ | name
    · exact absurd hns' hns
    · have h1 : ¬((-EOPNOTSUPP : Int) < 0 ∧ (-EOPNOTSUPP : Int) ≠ -EOPNOTSUPP) := by
        simp
      have h2 : ¬(0 ≤ (-EOPNOTSUPP : Int)) := by norm_num [EOPNOTSUPP]
      simp [sys_write_setting, hng, hns', h1, h2]
  · intro r hng hr
    rcases hr with hr | hr
    · simp [sys_write_setting, hng, not_lt.mpr hr, hr]
    · rcases hns' : s.sysfs_name with _ | name <;>
        simp [sys_write_setting, hng, hns', hr.1, hr.2]

theorem C1_witness :
    ((SettingsData.mk (some "fragmentation") none none (some (-EOPNOTSUPP))
        (some (-EOPNOTSUPP))).netlink_get = some (-EOPNOTSUPP)) ∧
    ((SettingsData.mk (some "fragmentation") none none (some (-EOPNOTSUPP))
        (some (-EOPNOTSUPP))).sysfs_name ≠ none) ∧
    (sys_read_setting
       (SettingsData.mk (some "fragmentation") none none (some (-EOPNOTSUPP))
          (some (-EOPNOTSUPP))) "p" 0).legacyReads.length = 1 ∧
    (sys_write_setting
       (SettingsData.mk (some "fragmentation") none none (some (-EOPNOTSUPP))
          (some (-EOPNOTSUPP))) "p" 0 ["f", "1"]).legacyWrites.length = 1 := by
  have h := C1_legacy_only_on_unsupported
    (SettingsData.mk (some "fragmentation") none none (some (-EOPNOTSUPP))
       (some (-EOPNOTSUPP))) "p" 0 0 ["f", "1"]
  exact ⟨rfl, by simp, h.2.1 rfl (by simp), h.2.2.2.2.1 rfl (by simp)⟩

/-- C6: a descriptor that declares neither a protocol operation nor a
legacy entry name terminates the invocation with a failure that touches no
backend and emits no diagnostic, whereas a normal transport failure (a
declared protocol operation whose query is answered by an error
acknowledgement other than `-EOPNOTSUPP`) fails with the
failure-reason diagnostic — so the two reports are distinct. -/
theorem C6_undeclared_distinct_from_transport_failure
    (path sysfs : String) (rf wf : Int) (argv : List String)
    (qe : QueryEnv) (c : Int)
    (hs : qe.sockPresent = true) (ha : qe.allocOk = true)
    (hat : qe.attrCb = none) (hev : qe.events = [RecvEvent.err c])
    (hneg : c < 0) (hc : c ≠ -EOPNOTSUPP) :
    sys_read_invocation none none path rf
      = (BackendTrace.mk EXIT_FAILURE 0 [] [], []) ∧
    sys_write_setting (SettingsData.mk none none none none none) path wf argv
      = BackendTrace.mk EXIT_FAILURE 0 [] [] ∧
    sys_read_invocation (some qe) (some sysfs) path rf
      = (BackendTrace.mk EXIT_FAILURE 1 [] [], [Diagnostic.errReceived c]) ∧
    (sys_read_invocation none none path rf).2
      ≠ (sys_read_invocation (some qe) (some sysfs) path rf).2 := by
  have hret : (sys_simple_nlquery qe).ret = c := by
    simp [sys_simple_nlquery, hs, ha, hat, hev, processEvents,
      sys_simple_nlerror]
  have hdiags : (sys_simple_nlquery qe).diags = [Diagnostic.errReceived c] := by
    simp [sys_simple_nlquery, hs, ha, hat, hev, processEvents,
      sys_simple_nlerror, hc]
  have h3 : sys_read_invocation (some qe) (some sysfs) path rf
      = (BackendTrace.mk EXIT_FAILURE 1 [] [], [Diagnostic.errReceived c]) := by
    simp [sys_read_invocation, sys_read_setting, hret, hdiags, hneg, hc]
  refine ⟨rfl, rfl, h3, ?_⟩
  rw [h3]
  simp [sys_read_invocation]

theorem C6_witness :
    ((QueryEnv.mk true true none true [RecvEvent.err (-13)]).events
       = [RecvEvent.err (-13)]) ∧
    ((-13 : Int) < 0) ∧ ((-13 : Int) ≠ -EOPNOTSUPP) ∧
    sys_read_invocation none none "p" 0
      = (BackendTrace.mk EXIT_FAILURE 0 [] [], []) ∧
    sys_read_invocation (some (QueryEnv.mk true true none true
        [RecvEvent.err (-13)])) (some "loglevel") "p" 0
      = (BackendTrace.mk EXIT_FAILURE 1 [] [], [Diagnostic.errReceived (-13)]) := by
  have h := C6_undeclared_distinct_from_transport_failure "p" "loglevel" 0 0 []
    (QueryEnv.mk true true none true [RecvEvent.err (-13)]) (-13)
    rfl rfl rfl rfl (by norm_num) (by norm_num [EOPNOTSUPP])
  exact ⟨rfl, by norm_num, by norm_num [EOPNOTSUPP], h.1, h.2.2.1⟩

theorem handle_allow_list_parseCalls (s : SettingsData) (env : SysEnv)
    (path : String) (argv : List String) (pc : Nat) (res : Int) :
    (handle_allow_list s env path argv pc res).parseCalls = pc := by
  unfold handle_allow_list
  split
  · rfl
  · split <;> simp [HandleResult.ofBackend]

/-- C7: on a write whose descriptor declares a parse hook, the hook runs
exactly once, and a negative hook result ends the invocation in failure
before the allow-list check (no enumeration diagnostic) and before either
backend (no protocol call, no legacy access). -/
theorem C7_parse_hook_runs_first (s : SettingsData) (env : SysEnv)
    (mesh_iface : String) (vid : Int) (argv : List String) (p : Int)
    (hopt : env.optOutcome = OptOutcome.noopts) (hm : env.mallocOk = true)
    (hroot : env.isRoot = true) (hargc : 2 ≤ argv.length)
    (hp : s.parse = some p) :
    (handle_sys_setting s env mesh_iface vid argv).parseCalls = 1 ∧
    (p < 0 →
       (handle_sys_setting s env mesh_iface vid argv).outcome
         = HandleOutcome.ret EXIT_FAILURE ∧
       (handle_sys_setting s env mesh_iface vid argv).netlinkCalls = 0 ∧
       (handle_sys_setting s env mesh_iface vid argv).legacyReads = [] ∧
       (handle_sys_setting s env mesh_iface vid argv).legacyWrites = [] ∧
       (handle_sys_setting s env mesh_iface vid argv).diags = []) := by
  have hne1 : ¬(argv.length = 1) := by omega
  constructor
  · by_cases hneg : p < 0
    · simp [handle_sys_setting, hopt, hm, hroot, hne1, hp, hneg]
    · simp [handle_sys_setting, hopt, hm, hroot, hne1, hp, hneg,
        handle_allow_list_parseCalls]
  · intro hneg
    simp [handle_sys_setting, hopt, hm, hroot, hne1, hp, hneg]

theorem C7_witness :
    ((SysEnv.mk OptOutcome.noopts true true 0 0).optOutcome
       = OptOutcome.noopts) ∧
    ((-22 : Int) < 0) ∧
    (handle_sys_setting
       (SettingsData.mk (some "orig_interval") none (some (-22)) none none)
       (SysEnv.mk OptOutcome.noopts true true 0 0)
       "bat0" (-1) ["orig_interval", "junk"]).parseCalls = 1 ∧
    (handle_sys_setting
       (SettingsData.mk (some "orig_interval") none (some (-22)) none none)
       (SysEnv.mk OptOutcome.noopts true true 0 0)
       "bat0" (-1) ["orig_interval", "junk"]).legacyWrites = [] := by
  have h := C7_parse_hook_runs_first
    (SettingsData.mk (some "orig_interval") none (some (-22)) none none)
    (SysEnv.mk OptOutcome.noopts true true 0 0)
    "bat0" (-1) ["orig_interval", "junk"] (-22)
    rfl rfl rfl (by norm_num) rfl
  exact ⟨rfl, by norm_num, h.1, (h.2 (by norm_num)).2.2.2.1⟩

theorem handle_allow_list_no_params (s : SettingsData) (env : SysEnv)
    (path : String) (argv : List String) (pc : Nat) (res : Int)
    (hl : s.params = none) :
    handle_allow_list s env path argv pc res =
      HandleResult.ofBackend pc
        (sys_write_setting s path env.write_file_res argv) := by
  unfold handle_allow_list
  simp only [hl]

theorem handle_allow_list_mismatch (s : SettingsData) (env : SysEnv)
    (path : String) (argv : List String) (pc : Nat) (res : Int)
    (l : List String)
    (hl : s.params = some l) (h : argv.getD 1 "" ∉ l) :
    handle_allow_list s env path argv pc res =
      HandleResult.mk (HandleOutcome.ret res)
        (Diagnostic.invalidArg (argv.getD 1 "") :: Diagnostic.allowedHeader ::
          l.map Diagnostic.allowedValue) pc 0 [] [] := by
  unfold handle_allow_list
  simp only [hl]
  rw [if_neg]
  simpa using h

theorem handle_allow_list_match (s : SettingsData) (env : SysEnv)
    (path : String) (argv : List String) (pc : Nat) (res : Int)
    (l : List String)
    (hl : s.params = some l) (h : argv.getD 1 "" ∈ l) :
    handle_allow_list s env path argv pc res =
      HandleResult.ofBackend pc
        (sys_write_setting s path env.write_file_res argv) := by
  unfold handle_allow_list
  simp only [hl]
  rw [if_pos]
  simpa using h

theorem handle_sys_setting_write_dispatch (s : SettingsData) (env : SysEnv)
    (mesh_iface : String) (vid : Int) (argv : List String)
    (hopt : env.optOutcome = OptOutcome.noopts) (hm : env.mallocOk = true)
    (hroot : env.isRoot = true) (hargc : 2 ≤ argv.length) :
    handle_sys_setting s env mesh_iface vid argv =
      (match s.parse with
       | some p =>
           if p < 0 then
             HandleResult.mk (HandleOutcome.ret EXIT_FAILURE) [] 1 0 [] []
           else
             handle_allow_list s env (resolve_path mesh_iface vid) argv 1 p
       | none =>
           handle_allow_list s env (resolve_path mesh_iface vid) argv 0
             EXIT_FAILURE) := by
  have hne1 : ¬(argv.length = 1) := by omega
  simp [handle_sys_setting, hopt, hm, hroot, hne1]

theorem sys_write_setting_fallback (s : SettingsData) (path nm : String)
    (wf : Int) (argv : List String)
    (hns : s.sysfs_name = some nm)
    (hnset : s.netlink_set = none ∨ s.netlink_set = some (-EOPNOTSUPP)) :
    (sys_write_setting s path wf argv).legacyWrites
      = [(path, nm, argv.getD 1 "",
          if 2 < argv.length then some (argv.getD 2 "") else none)] ∧
    (sys_write_setting s path wf argv).ret = wf := by
  rcases hnset with h | h
  · simp [sys_write_setting, h, hns]
  · have h1 : ¬((-EOPNOTSUPP : Int) < 0 ∧ (-EOPNOTSUPP : Int) ≠ -EOPNOTSUPP) := by
      simp
    have h2 : ¬(0 ≤ (-EOPNOTSUPP : Int)) := by norm_num [EOPNOTSUPP]
    simp [sys_write_setting, h, hns, h1, h2]

/-- C2 (amended): for every write invocation whose descriptor declares a
non-empty allow-list *and no value-parsing hook*: a value argument that
is not byte-identical to any entry reaches no backend, fails, and makes
the diagnostics enumerate the offending value and every entry in declared
order; a value equal to some entry dispatches the write to the backends. -/
theorem C2_allow_list_gate (s : SettingsData) (env : SysEnv)
    (mesh_iface : String) (vid : Int) (argv : List String) (l : List String)
    (hopt : env.optOutcome = OptOutcome.noopts) (hm : env.mallocOk = true)
    (hroot : env.isRoot = true) (hargc : 2 ≤ argv.length)
    (hl : s.params = some l) (hne : l ≠ [])
    (hparse : s.parse = none) :
    (argv.getD 1 "" ∉ l →
       (handle_sys_setting s env mesh_iface vid argv).outcome
         = HandleOutcome.ret EXIT_FAILURE ∧
       (handle_sys_setting s env mesh_iface vid argv).netlinkCalls = 0 ∧
       (handle_sys_setting s env mesh_iface vid argv).legacyReads = [] ∧
       (handle_sys_setting s env mesh_iface vid argv).legacyWrites = [] ∧
       (handle_sys_setting s env mesh_iface vid argv).diags
         = Diagnostic.invalidArg (argv.getD 1 "") :: Diagnostic.allowedHeader ::
             l.map Diagnostic.allowedValue) ∧
    (argv.getD 1 "" ∈ l →
       (handle_sys_setting s env mesh_iface vid argv).outcome
         = HandleOutcome.ret
             (sys_write_setting s (resolve_path mesh_iface vid)
                env.write_file_res argv).ret ∧
       (handle_sys_setting s env mesh_iface vid argv).netlinkCalls
         = (sys_write_setting s (resolve_path mesh_iface vid)
              env.write_file_res argv).netlinkCalls ∧
       (handle_sys_setting s env mesh_iface vid argv).legacyWrites
         = (sys_write_setting s (resolve_path mesh_iface vid)
              env.write_file_res argv).legacyWrites) := by
  have hd := handle_sys_setting_write_dispatch s env mesh_iface vid argv
    hopt hm hroot hargc
  constructor
  · intro h
    rw [hd, hparse,
      handle_allow_list_mismatch s env (resolve_path mesh_iface vid) argv 0
        EXIT_FAILURE l hl h]
    exact ⟨rfl, rfl, rfl, rfl, rfl⟩
  · intro h
    rw [hd, hparse,
      handle_allow_list_match s env (resolve_path mesh_iface vid) argv 0
        EXIT_FAILURE l hl h]
    exact ⟨rfl, rfl, rfl⟩

theorem C2_witness :
    (("maybe" : String) ∉ ["enable", "disable", "1", "0"]) ∧
    (handle_sys_setting
       (SettingsData.mk (some "fragmentation") (some ["enable", "disable", "1", "0"])
          none none none)
       (SysEnv.mk OptOutcome.noopts true true 0 0)
       "bat0" (-1) ["fragmentation", "maybe"]).diags
      = Diagnostic.invalidArg "maybe" :: Diagnostic.allowedHeader ::
          (["enable", "disable", "1", "0"].map Diagnostic.allowedValue) ∧
    (handle_sys_setting
       (SettingsData.mk (some "fragmentation") (some ["enable", "disable", "1", "0"])
          none none none)
       (SysEnv.mk OptOutcome.noopts true true 0 0)
       "bat0" (-1) ["fragmentation", "maybe"]).legacyWrites = [] := by
  have h := C2_allow_list_gate
    (SettingsData.mk (some "fragmentation") (some ["enable", "disable", "1", "0"])
       none none none)
    (SysEnv.mk OptOutcome.noopts true true 0 0)
    "bat0" (-1) ["fragmentation", "maybe"] ["enable", "disable", "1", "0"]
    rfl rfl rfl (by norm_num) rfl (by simp) rfl
  have h2 := h.1 (by decide)
  exact ⟨by decide, h2.2.2.2.2, h2.2.2.2.1⟩

/-- C2 as stated is false in two ways once a parse hook is declared: a
hook that rejects makes a mismatching write fail *without* the allow-list
enumeration ever being printed (and a matching value still reaches no
backend), and a hook that accepts with return value `0` makes a
mismatching write print the enumeration but terminate with
`EXIT_SUCCESS` — not with failure — because the mismatch path returns the
live `res`, which then holds the hook's value. -/
theorem C2_counterexample :
    (("maybe" : String) ∉ ["1"]) ∧
    (handle_sys_setting
       (SettingsData.mk (some "fragmentation") (some ["1"]) (some (-22)) none none)
       (SysEnv.mk OptOutcome.noopts true true 0 0)
       "bat0" (-1) ["fragmentation", "maybe"]).diags = [] ∧
    ([] : List Diagnostic)
      ≠ Diagnostic.invalidArg "maybe" :: Diagnostic.allowedHeader ::
          (["1"].map Diagnostic.allowedValue) ∧
    (("1" : String) ∈ ["1"]) ∧
    (handle_sys_setting
       (SettingsData.mk (some "fragmentation") (some ["1"]) (some (-22)) none none)
       (SysEnv.mk OptOutcome.noopts true true 0 0)
       "bat0" (-1) ["fragmentation", "1"]).legacyWrites = [] ∧
    (handle_sys_setting
       (SettingsData.mk (some "fragmentation") (some ["1"]) (some (-22)) none none)
       (SysEnv.mk OptOutcome.noopts true true 0 0)
       "bat0" (-1) ["fragmentation", "1"]).netlinkCalls = 0 ∧
    (handle_sys_setting
       (SettingsData.mk (some "fragmentation") (some ["1"]) (some 0) none none)
       (SysEnv.mk OptOutcome.noopts true true 0 0)
       "bat0" (-1) ["fragmentation", "maybe"]).outcome
      = HandleOutcome.ret EXIT_SUCCESS ∧
    (handle_sys_setting
       (SettingsData.mk (some "fragmentation") (some ["1"]) (some 0) none none)
       (SysEnv.mk OptOutcome.noopts true true 0 0)
       "bat0" (-1) ["fragmentation", "maybe"]).diags
      = Diagnostic.invalidArg "maybe" :: Diagnostic.allowedHeader ::
          (["1"].map Diagnostic.allowedValue) ∧
    HandleOutcome.ret EXIT_SUCCESS ≠ HandleOutcome.ret EXIT_FAILURE := by
  refine ⟨by decide, ?_, by decide, by decide, ?_, ?_, ?_, ?_, by decide⟩ <;> rfl

/-- C8: on a write supplying two value arguments, only the first is
checked against the allow-list — the dispatch decision and diagnostics are
the same for every second argument — and when the legacy backend performs
the write, the second argument is forwarded to it verbatim as the
secondary value. -/
theorem C8_second_value_never_validated (s : SettingsData) (env : SysEnv)
    (mesh_iface : String) (vid : Int) (cmd v1 v2 nm : String)
    (l : List String)
    (hopt : env.optOutcome = OptOutcome.noopts) (hm : env.mallocOk = true)
    (hroot : env.isRoot = true)
    (hparse : s.parse = none)
    (hl : s.params = some l)
    (hns : s.sysfs_name = some nm)
    (hnset : s.netlink_set = none ∨ s.netlink_set = some (-EOPNOTSUPP)) :
    (v1 ∈ l →
       (handle_sys_setting s env mesh_iface vid [cmd, v1, v2]).legacyWrites
         = [(resolve_path mesh_iface vid, nm, v1, some v2)] ∧
       (handle_sys_setting s env mesh_iface vid [cmd, v1, v2]).outcome
         = HandleOutcome.ret env.write_file_res) ∧
    (v1 ∉ l →
       (handle_sys_setting s env mesh_iface vid [cmd, v1, v2]).legacyWrites = [] ∧
       (handle_sys_setting s env mesh_iface vid [cmd, v1, v2]).netlinkCalls = 0 ∧
       (handle_sys_setting s env mesh_iface vid [cmd, v1, v2]).outcome
         = HandleOutcome.ret EXIT_FAILURE) := by
  have hd := handle_sys_setting_write_dispatch s env mesh_iface vid
    [cmd, v1, v2] hopt hm hroot (by simp)
  have hv1 : [cmd, v1, v2].getD 1 "" = v1 := rfl
  constructor
  · intro h
    rw [hd, hparse,
      handle_allow_list_match s env (resolve_path mesh_iface vid)
        [cmd, v1, v2] 0 EXIT_FAILURE l hl (by rw [hv1]; exact h)]
    have hw := sys_write_setting_fallback s (resolve_path mesh_iface vid) nm
      env.write_file_res [cmd, v1, v2] hns hnset
    have hlen : 2 < ([cmd, v1, v2] : List String).length := by simp
    refine ⟨?_, ?_⟩
    · rw [show (HandleResult.ofBackend 0
          (sys_write_setting s (resolve_path mesh_iface vid)
             env.write_file_res [cmd, v1, v2])).legacyWrites
          = (sys_write_setting s (resolve_path mesh_iface vid)
               env.write_file_res [cmd, v1, v2]).legacyWrites from rfl, hw.1]
      simp
    · rw [show (HandleResult.ofBackend 0
          (sys_write_setting s (resolve_path mesh_iface vid)
             env.write_file_res [cmd, v1, v2])).outcome
          = HandleOutcome.ret (sys_write_setting s (resolve_path mesh_iface vid)
               env.write_file_res [cmd, v1, v2]).ret from rfl, hw.2]
  · intro h
    rw [hd, hparse,
      handle_allow_list_mismatch s env (resolve_path mesh_iface vid)
        [cmd, v1, v2] 0 EXIT_FAILURE l hl (by rw [hv1]; exact h)]
    exact ⟨rfl, rfl, rfl⟩

theorem C8_witness :
    (("1" : String) ∈ ["1", "0"]) ∧ (("junk2" : String) ∉ ["1", "0"]) ∧
    (handle_sys_setting
       (SettingsData.mk (some "network_coding") (some ["1", "0"]) none none none)
       (SysEnv.mk OptOutcome.noopts true true 0 7)
       "bat0" (-1) ["nc", "1", "junk2"]).legacyWrites
      = [(resolve_path "bat0" (-1), "network_coding", "1", some "junk2")] ∧
    (handle_sys_setting
       (SettingsData.mk (some "network_coding") (some ["1", "0"]) none none none)
       (SysEnv.mk OptOutcome.noopts true true 0 7)
       "bat0" (-1) ["nc", "1", "junk2"]).outcome = HandleOutcome.ret 7 := by
  have h := C8_second_value_never_validated
    (SettingsData.mk (some "network_coding") (some ["1", "0"]) none none none)
    (SysEnv.mk OptOutcome.noopts true true 0 7)
    "bat0" (-1) "nc" "1" "junk2" "network_coding" ["1", "0"]
    rfl rfl rfl rfl rfl rfl (Or.inl rfl)
  have h2 := h.1 (by decide)
  exact ⟨by decide, by decide, h2.1, h2.2⟩

/-- C3: path resolution is deterministic over the target descriptor: any
non-negative VLAN id (zero included) resolves through the VLAN template,
any negative id through the physical template; over target descriptors
(interface name, optional non-negative VLAN id) resolution is injective;
and the VLAN-0 path differs from the physical path of the same
interface. -/
theorem C3_path_resolution (mesh_iface i₁ i₂ : String) (vid : Int)
    (o₁ o₂ : Option Nat) :
    (0 ≤ vid → resolve_path mesh_iface vid = SYS_VLAN_PATH mesh_iface vid.toNat) ∧
    (vid < 0 → resolve_path mesh_iface vid = SYS_BATIF_PATH mesh_iface) ∧
    resolve_path mesh_iface vid
      = resolve_target mesh_iface (if 0 ≤ vid then some vid.toNat else none) ∧
    (resolve_target i₁ o₁ = resolve_target i₂ o₂ → i₁ = i₂ ∧ o₁ = o₂) ∧
    resolve_path mesh_iface 0 ≠ SYS_BATIF_PATH mesh_iface := by
  refine ⟨?_, ?_, ?_, ?_, ?_⟩
  · intro h
    simp [resolve_path, h]
  · intro h
    simp [resolve_path, not_le.mpr h]
  · by_cases h : 0 ≤ vid <;> simp [resolve_path, resolve_target, h]
  · exact resolve_target_injective i₁ i₂ o₁ o₂
  · intro h
    have h0 : resolve_path mesh_iface 0 = resolve_target mesh_iface (some 0) := rfl
    have h1 : SYS_BATIF_PATH mesh_iface = resolve_target mesh_iface none := rfl
    rw [h0, h1] at h
    exact Option.noConfusion (resolve_target_injective _ _ _ _ h).2

theorem C3_witness :
    ((0 : Int) ≤ 5) ∧
    resolve_path "bat0" 5 = SYS_VLAN_PATH "bat0" (5 : Int).toNat ∧
    ((-1 : Int) < 0) ∧
    resolve_path "bat0" (-1) = SYS_BATIF_PATH "bat0" ∧
    ("bat0" : String) = "bat0" ∧ (some 7 : Option Nat) = some 7 ∧
    resolve_path "bat0" 0 ≠ SYS_BATIF_PATH "bat0" := by
  have h := C3_path_resolution "bat0" "bat0" "bat0" 5 (some 7) (some 7)
  have h2 := C3_path_resolution "bat0" "bat0" "bat0" (-1) (some 7) (some 7)
  have h3 := C3_path_resolution "bat0" "bat0" "bat0" 0 (some 7) (some 7)
  have hinj := h.2.2.2.1 rfl
  exact ⟨by norm_num, h.1 (by norm_num), by norm_num, h2.2.1 (by norm_num),
    hinj.1, hinj.2, h3.2.2.2.2⟩
